import Mathlib

/-!
# Nebula database client — verification of the connectivity/introspection core

Shallow embedding of the database connectivity layer of the Nebula client:
the value model (`src/models/query.rs`), the connection configuration
(`src/models/connection.rs`), the MySQL backend driver (`src/db/mysql.rs`),
the connection factory (`src/db/mod.rs`), and the async poll bridge
(`src/main.rs`).  Pure functions are translated directly; the effectful
boundary (the sqlx wire protocol, the tokio oneshot channels and mutex)
is modelled by passing the observable outcomes of those effects as
explicit arguments or by a step relation.

All definitions are written from the Rust source, arm for arm.
-/

namespace Nebula

/-! ## Value model (`src/models/query.rs`) -/

/-- An f64 payload, modelled by its 64-bit pattern.  The claims under
verification only inspect variant tags, never float arithmetic, so the
payload is kept as an inert bit pattern to stay kernel-decidable. -/
structure F64 where
  bits : Nat
deriving DecidableEq, Repr

/-- `CellValue` from `src/models/query.rs`: the tagged union of cell values.
`Bytes` carries the byte list (each entry a `u8` value), `DateTime` and
`Json` carry the raw textual form. -/
inductive CellValue where
  | Null
  | Bool (b : Bool)
  | Int (i : Int)
  | Float (f : F64)
  | String (s : String)
  | Bytes (b : List Nat)
  | DateTime (s : String)
  | Json (s : String)
deriving DecidableEq, Repr

/-- `ColumnInfo` from `src/models/query.rs`. -/
structure ColumnInfo where
  name : String
  data_type : String
  nullable : Bool
  is_primary_key : Bool
deriving DecidableEq, Repr

/-- `QueryResult` from `src/models/query.rs`.  `affected_rows : Option u64`
and `execution_time_ms : u64` are modelled as `Option Nat` and `Nat`. -/
structure QueryResult where
  columns : List ColumnInfo
  rows : List (List CellValue)
  affected_rows : Option Nat
  execution_time_ms : Nat
deriving DecidableEq, Repr

/-! ## Error taxonomy (`src/db/mod.rs`, `DatabaseError`) -/

/-- `DatabaseError` from `src/db/mod.rs`. -/
inductive DatabaseError where
  | ConnectionFailed (s : String)
  | QueryFailed (s : String)
  | AuthenticationFailed (s : String)
  | DatabaseNotFound (s : String)
  | Timeout (s : String)
  | UnsupportedType (s : String)
  | Internal (s : String)
deriving DecidableEq, Repr

/-- The `thiserror`-derived `Display` rendering of `DatabaseError`
(`#[error("...")]` attributes in `src/db/mod.rs`); this is what
`e.to_string()` produces at the async-bridge boundary in `src/main.rs`. -/
def DatabaseError.toMessage : DatabaseError → String
  | .ConnectionFailed s => "Connection failed: " ++ s
  | .QueryFailed s => "Query failed: " ++ s
  | .AuthenticationFailed s => "Authentication failed: " ++ s
  | .DatabaseNotFound s => "Database not found: " ++ s
  | .Timeout s => "Timeout: " ++ s
  | .UnsupportedType s => "Unsupported database type: " ++ s
  | .Internal s => "Internal error: " ++ s

/-! ## Raw wire cells and `row_to_values` (`src/db/mysql.rs`)

A `MySqlRow` cell is modelled by the column metadata the driver reads from
it (`col.name()`, `col.type_info().name()`) together with the outcome of
`row.try_get::<T, _>(i)` at each Rust type `T` that `row_to_values` ever
requests.  `try_get` is sqlx library code outside this repository; each
`try*` field records its observable result (`some v` for `Ok(v)`, `none`
for `Err(_)`) at the corresponding type. -/

structure RawCell where
  name : String
  typeName : String
  tryBool : Option Bool
  tryI64 : Option Int
  tryF64 : Option F64
  tryString : Option String
  tryBytes : Option (List Nat)
deriving DecidableEq, Repr

/-- The per-cell body of `MySqlConnection::row_to_values`
(`src/db/mysql.rs` lines 33–67): one match on the column's native type
name; each arm attempts the corresponding `try_get` and falls back to
`CellValue::Null` via `.unwrap_or(CellValue::Null)`. -/
def cellToValue (c : RawCell) : CellValue :=
  match c.typeName with
  | "BOOLEAN" | "BOOL" =>
      (c.tryBool.map CellValue.Bool).getD CellValue.Null
  | "TINYINT" | "SMALLINT" | "INT" | "MEDIUMINT" | "BIGINT" =>
      (c.tryI64.map CellValue.Int).getD CellValue.Null
  | "TINYINT UNSIGNED" | "SMALLINT UNSIGNED" | "INT UNSIGNED"
  | "MEDIUMINT UNSIGNED" | "BIGINT UNSIGNED" =>
      (c.tryI64.map CellValue.Int).getD CellValue.Null
  | "FLOAT" | "DOUBLE" | "DECIMAL" =>
      (c.tryF64.map CellValue.Float).getD CellValue.Null
  | "DATE" | "TIME" | "DATETIME" | "TIMESTAMP" =>
      (c.tryString.map CellValue.DateTime).getD CellValue.Null
  | "JSON" =>
      (c.tryString.map CellValue.Json).getD CellValue.Null
  | "BLOB" | "BINARY" | "VARBINARY" | "TINYBLOB" | "MEDIUMBLOB" | "LONGBLOB" =>
      (c.tryBytes.map CellValue.Bytes).getD CellValue.Null
  | _ =>
      (c.tryString.map CellValue.String).getD CellValue.Null

/-- `MySqlConnection::row_to_values`: materializes every cell of the row in
positional order (the Rust loop `for i in 0..row.len()`). -/
def row_to_values (row : List RawCell) : List CellValue :=
  row.map cellToValue

/-- The variant tag a cell value carries. -/
inductive CellTag where
  | nullTag | boolTag | intTag | floatTag | stringTag | bytesTag
  | dateTimeTag | jsonTag
deriving DecidableEq, Repr

/-- Tag of a `CellValue`. -/
def CellValue.tag : CellValue → CellTag
  | .Null => .nullTag
  | .Bool _ => .boolTag
  | .Int _ => .intTag
  | .Float _ => .floatTag
  | .String _ => .stringTag
  | .Bytes _ => .bytesTag
  | .DateTime _ => .dateTimeTag
  | .Json _ => .jsonTag

/-- The type-name → variant-tag dispatch of `row_to_values`: exactly the
pattern structure of the match in `src/db/mysql.rs` lines 33–67, with each
arm recording only which `CellValue` variant it targets. -/
def tagOf : String → CellTag
  | "BOOLEAN" | "BOOL" => .boolTag
  | "TINYINT" | "SMALLINT" | "INT" | "MEDIUMINT" | "BIGINT" => .intTag
  | "TINYINT UNSIGNED" | "SMALLINT UNSIGNED" | "INT UNSIGNED"
  | "MEDIUMINT UNSIGNED" | "BIGINT UNSIGNED" => .intTag
  | "FLOAT" | "DOUBLE" | "DECIMAL" => .floatTag
  | "DATE" | "TIME" | "DATETIME" | "TIMESTAMP" => .dateTimeTag
  | "JSON" => .jsonTag
  | "BLOB" | "BINARY" | "VARBINARY" | "TINYBLOB" | "MEDIUMBLOB" | "LONGBLOB" => .bytesTag
  | _ => .stringTag

/-- The payload-decoding half of each `row_to_values` arm: at a given
target tag, the result of the `try_get` the arm performs, mapped into the
target variant.  `none` when the raw value cannot be coerced. -/
def decodeAs (t : CellTag) (c : RawCell) : Option CellValue :=
  match t with
  | .boolTag => c.tryBool.map CellValue.Bool
  | .intTag => c.tryI64.map CellValue.Int
  | .floatTag => c.tryF64.map CellValue.Float
  | .dateTimeTag => c.tryString.map CellValue.DateTime
  | .jsonTag => c.tryString.map CellValue.Json
  | .bytesTag => c.tryBytes.map CellValue.Bytes
  | .stringTag => c.tryString.map CellValue.String
  | .nullTag => none

/-- Every type name `row_to_values` matches explicitly (all arms except the
catch-all). -/
def mappedTypeNames : List String :=
  ["BOOLEAN", "BOOL",
   "TINYINT", "SMALLINT", "INT", "MEDIUMINT", "BIGINT",
   "TINYINT UNSIGNED", "SMALLINT UNSIGNED", "INT UNSIGNED",
   "MEDIUMINT UNSIGNED", "BIGINT UNSIGNED",
   "FLOAT", "DOUBLE", "DECIMAL",
   "DATE", "TIME", "DATETIME", "TIMESTAMP",
   "JSON",
   "BLOB", "BINARY", "VARBINARY", "TINYBLOB", "MEDIUMBLOB", "LONGBLOB"]

/-! ## Query execution (`MySqlConnection::execute_query`, `src/db/mysql.rs`)

The sqlx call `sqlx::query(sql).fetch_all(&self.pool)` is the effectful
boundary: its observable outcome — the fetched rows, or the transport
error text — is passed in as the `fetch` argument.  The elapsed
wall-clock milliseconds are likewise a measured side effect, passed in as
`elapsedMs`. -/

/-- The per-column construction on `rows[0].columns()` in
`MySqlConnection::execute_query`: name and native type name from the
column metadata; nullability and primary-key default to the permissive
`true`/`false`. -/
def mkColumnInfo (c : RawCell) : ColumnInfo :=
  { name := c.name, data_type := c.typeName, nullable := true,
    is_primary_key := false }

/-- `MySqlConnection::execute_query` (`src/db/mysql.rs` lines 209–249):
fetch errors become `QueryFailed`; zero fetched rows yield an empty
result; otherwise columns come from the first row's metadata and every
row is materialized by `row_to_values`.  `affected_rows` is `none` on
every path. -/
def execute_query (elapsedMs : Nat)
    (fetch : Except String (List (List RawCell))) :
    Except DatabaseError QueryResult :=
  match fetch with
  | .error e => .error (.QueryFailed e)
  | .ok rows =>
    if rows.isEmpty then
      .ok { columns := [], rows := [], affected_rows := none,
            execution_time_ms := elapsedMs }
    else
      .ok { columns := (rows.headD []).map mkColumnInfo,
            rows := rows.map row_to_values,
            affected_rows := none,
            execution_time_ms := elapsedMs }

/-! ## Schema introspection (`MySqlConnection::describe_table`) -/

/-- `ColumnDetails` from `src/db/mod.rs`. -/
structure ColumnDetails where
  name : String
  data_type : String
  nullable : Bool
  default_value : Option String
  is_primary_key : Bool
  is_auto_increment : Bool
  comment : Option String
deriving DecidableEq, Repr

/-- `TableInfo` from `src/db/mod.rs`. -/
structure TableInfo where
  name : String
  database : String
  engine : Option String
  row_count : Option Nat
  data_size : Option Nat
  columns : List ColumnDetails
deriving DecidableEq, Repr

/-- `pat` is a leading segment of `s` (over character lists). -/
def leadsWith : List Char → List Char → Bool
  | _, [] => true
  | [], _ :: _ => false
  | c :: cs, p :: ps => c == p && leadsWith cs ps

/-- `pat` occurs as a contiguous segment of `s` (over character lists). -/
def segmentOf (s pat : List Char) : Bool :=
  match s with
  | [] => pat.isEmpty
  | _ :: rest => leadsWith s pat || segmentOf rest pat

/-- Rust `str::contains(pat)` (std library code outside this repository):
`pat` occurs as a substring of `s`.  Defined over character lists to keep
it kernel-computable. -/
def strContains (s pat : String) : Bool :=
  segmentOf s.data pat.data

/-- One row of the `information_schema.COLUMNS` introspection result in
`MySqlConnection::describe_table`: the outcome of `row.try_get` at each
of the seven selected columns (COLUMN_NAME, COLUMN_TYPE, IS_NULLABLE,
COLUMN_DEFAULT, COLUMN_KEY, EXTRA, COLUMN_COMMENT), `none` for a decode
failure.  The backend returns these rows already ordered by
ORDINAL_POSITION (the query's ORDER BY). -/
structure IntroRow where
  column_name : Option String
  column_type : Option String
  is_nullable : Option String
  column_default : Option String
  column_key : Option String
  extra : Option String
  comment : Option String
deriving DecidableEq, Repr

/-- The per-row closure of `describe_table`'s `filter_map`
(`src/db/mysql.rs` lines 180–195): the first three columns are required
(`.ok()?` — a missing one drops the row), COLUMN_KEY and EXTRA fall back
to the empty string (`unwrap_or_default`), and the marker checks are
`column_key == "PRI"` and `extra.contains("auto_increment")`. -/
def introRowToColumn (r : IntroRow) : Option ColumnDetails :=
  match r.column_name, r.column_type, r.is_nullable with
  | some name, some data_type, some nullable =>
    some { name := name, data_type := data_type,
           nullable := nullable == "YES",
           default_value := r.column_default,
           is_primary_key := (r.column_key.getD "") == "PRI",
           is_auto_increment := strContains (r.extra.getD "") "auto_increment",
           comment := r.comment }
  | _, _, _ => none

/-- `MySqlConnection::describe_table` (`src/db/mysql.rs` lines 163–207):
a fetch error becomes `QueryFailed`; otherwise every introspection row is
mapped in order through the `filter_map` closure and packed into a
`TableInfo` with no engine/size estimates.  The `fetch` argument is the
observable outcome of the `information_schema.COLUMNS` query. -/
def describe_table (database table : String)
    (fetch : Except String (List IntroRow)) :
    Except DatabaseError TableInfo :=
  match fetch with
  | .error e => .error (.QueryFailed e)
  | .ok rows =>
    .ok { name := table, database := database, engine := none,
          row_count := none, data_size := none,
          columns := rows.filterMap introRowToColumn }

/-! ## Connection configuration (`src/models/connection.rs`) -/

/-- `DatabaseType` from `src/models/connection.rs`. -/
inductive DatabaseType where
  | MySQL
  | PostgreSQL
  | SQLite
  | MongoDB
deriving DecidableEq, Repr

/-- `ConnectionConfig` from `src/models/connection.rs`; the `Uuid` id is
opaque to the core and modelled as a `Nat`. -/
structure ConnectionConfig where
  id : Nat
  name : String
  db_type : DatabaseType
  host : String
  port : Nat
  username : String
  password : String
  database : String
  ssl_enabled : Bool
  color : Option String
deriving DecidableEq, Repr

/-- `ConnectionConfig::connection_string` (`src/models/connection.rs`
lines 81–105): a URL formatted per backend tag.  Note no arm reads
`ssl_enabled` or `color`. -/
def ConnectionConfig.connection_string (c : ConnectionConfig) : String :=
  match c.db_type with
  | .MySQL =>
      "mysql://" ++ c.username ++ ":" ++ c.password ++ "@" ++ c.host
        ++ ":" ++ toString c.port ++ "/" ++ c.database
  | .PostgreSQL =>
      "postgres://" ++ c.username ++ ":" ++ c.password ++ "@" ++ c.host
        ++ ":" ++ toString c.port ++ "/" ++ c.database
  | .SQLite =>
      "sqlite:" ++ c.database
  | .MongoDB =>
      "mongodb://" ++ c.username ++ ":" ++ c.password ++ "@" ++ c.host
        ++ ":" ++ toString c.port ++ "/" ++ c.database

/-! ## Connection factory (`create_connection`, `src/db/mod.rs`) -/

/-- What the factory does before any network I/O can happen.  The MySQL
arm calls `MySqlConnection::connect(config)`, whose first and only
network effect is opening a pool against `config.connection_string()`
(recorded as `connectAttempt` with that URL); the other arms return
`Err(DatabaseError::UnsupportedType(msg))` synchronously, with no I/O. -/
inductive FactoryOutcome where
  | connectAttempt (url : String)
  | unsupported (msg : String)
deriving DecidableEq, Repr

/-- `create_connection` (`src/db/mod.rs` lines 120–147), modelled up to
its first effect: dispatch on `config.db_type`. -/
def create_connection (config : ConnectionConfig) : FactoryOutcome :=
  match config.db_type with
  | .MySQL => .connectAttempt config.connection_string
  | .PostgreSQL => .unsupported "PostgreSQL support coming soon"
  | .SQLite => .unsupported "SQLite support coming soon"
  | .MongoDB => .unsupported "MongoDB support coming soon"

/-! ## App-level query dispatch (`NebulaApp::execute_query`, `src/main.rs`) -/

/-- Rust `str::trim` (std library, outside this repository): drop leading
and trailing whitespace.  Over character lists for kernel computability. -/
def dropLeadingWs : List Char → List Char
  | [] => []
  | ch :: rest => if ch.isWhitespace then dropLeadingWs rest else ch :: rest

/-- Rust `str::trim` on a string. -/
def strTrim (s : String) : String :=
  String.mk ((dropLeadingWs (dropLeadingWs s.data).reverse).reverse)

/-- Rust `str::to_uppercase` (std library, outside this repository),
restricted to the ASCII uppercasing the SQL-keyword test relies on. -/
def strUpper (s : String) : String :=
  String.mk (s.data.map Char.toUpper)

/-- The SELECT/SHOW/DESCRIBE/EXPLAIN test in `NebulaApp::execute_query`
(`src/main.rs` lines 325–328): `sql.trim().to_uppercase().starts_with(k)`
for each of the four keywords. -/
def is_select (sql : String) : Bool :=
  leadsWith (strUpper (strTrim sql)).data "SELECT".data
  || leadsWith (strUpper (strTrim sql)).data "SHOW".data
  || leadsWith (strUpper (strTrim sql)).data "DESCRIBE".data
  || leadsWith (strUpper (strTrim sql)).data "EXPLAIN".data

/-- The result computation of the task spawned by
`NebulaApp::execute_query` (`src/main.rs` lines 330–344): a SELECT-like
statement delegates to the driver's `execute_query` (errors rendered to
strings); anything else runs `execute_statement` — its affected count is
wrapped in a `QueryResult` with empty columns/rows and zero elapsed time.
`stmtOutcome` is the observable outcome of `execute_statement`. -/
def app_execute_query (sql : String) (elapsedMs : Nat)
    (queryFetch : Except String (List (List RawCell)))
    (stmtOutcome : Except DatabaseError Nat) : Except String QueryResult :=
  if is_select sql then
    (execute_query elapsedMs queryFetch).mapError DatabaseError.toMessage
  else
    match stmtOutcome with
    | .ok affected =>
        .ok { columns := [], rows := [], affected_rows := some affected,
              execution_time_ms := 0 }
    | .error e => .error e.toMessage

/-! ## Async poll bridge (`NebulaApp::poll_async_tasks`, `src/main.rs`)

Each of the six pending-operation fields (`pending_connection`,
`pending_test`, `pending_databases`, `pending_tables`, `pending_views`,
`pending_query`) is an `Option` around a tokio oneshot receiver and is
polled by the identical shape

    if let Some(rx) = &mut self.pending_x {
      if let Ok(result) = rx.try_recv() { ...handle...; self.pending_x = None; } }

A receiver is modelled by `Option α`: `some v` once the spawned task has
executed `tx.send(result)` (which it always does), `none` while the task
is still running — so `try_recv` returns `Ok` exactly on `some`. -/

/-- One pending-operation slot: `none` is Idle (no operation in flight),
`some rx` is Pending with receiver `rx`. -/
def Slot (α : Type) : Type := Option (Option α)

/-- One frame's poll of a slot, returning the observed result (if any)
and the slot's state after the poll — the body shape shared by all six
slots of `poll_async_tasks` (`src/main.rs` lines 123–248). -/
def pollSlot {α : Type} (slot : Slot α) : Option α × Slot α :=
  match slot with
  | none => (none, none)
  | some (some v) => (some v, none)
  | some none => (none, some none)

/-! ## Transport mutual exclusion (`src/main.rs` line 36 and spawned tasks)

The live connection is `Arc<Mutex<Box<dyn DatabaseConnection>>>`.  Every
spawned operation clones the `Arc`, then runs
`let conn = conn_clone.lock().await; conn.<call>(..).await; tx.send(..)`
— the mutex guard is held from before the transport call until the task
body ends.  Two concurrently spawned operations against the same handle
are modelled as a small interleaving system: each task acquires the lock
(only when free), performs its transport call while holding it, and
releases it when its body finishes. -/

/-- Phase of one spawned operation: before `lock().await` has returned;
holding the lock with the transport call in flight; finished (guard
dropped). -/
inductive OpPhase where
  | start
  | transport
  | finished
deriving DecidableEq, Repr

/-- Joint state of two operations racing for the same connection handle:
their phases plus the mutex owner (`some false` = first operation,
`some true` = second). -/
structure BridgeState where
  opA : OpPhase
  opB : OpPhase
  lockOwner : Option Bool
deriving DecidableEq, Repr

/-- Interleaving steps: `lock().await` returns only when the mutex is
free and records the new owner; a task in its transport section may
finish, dropping the guard. -/
inductive BridgeStep : BridgeState → BridgeState → Prop where
  | lockA {s : BridgeState} (h1 : s.opA = OpPhase.start)
      (h2 : s.lockOwner = none) :
      BridgeStep s { s with opA := OpPhase.transport, lockOwner := some false }
  | finishA {s : BridgeState} (h1 : s.opA = OpPhase.transport) :
      BridgeStep s { s with opA := OpPhase.finished, lockOwner := none }
  | lockB {s : BridgeState} (h1 : s.opB = OpPhase.start)
      (h2 : s.lockOwner = none) :
      BridgeStep s { s with opB := OpPhase.transport, lockOwner := some true }
  | finishB {s : BridgeState} (h1 : s.opB = OpPhase.transport) :
      BridgeStep s { s with opB := OpPhase.finished, lockOwner := none }

/-- Both operations spawned, neither yet holding the lock. -/
def bridgeInit : BridgeState :=
  { opA := OpPhase.start, opB := OpPhase.start, lockOwner := none }

/-- States reachable from the two-operation initial state. -/
inductive BridgeReachable : BridgeState → Prop where
  | init : BridgeReachable bridgeInit
  | step {s t : BridgeState} :
      BridgeReachable s → BridgeStep s t → BridgeReachable t

/-!
# Theorems
-/

/-- `cellToValue` is `tagOf`-dispatch followed by payload decoding with
Null fallback: the match of `row_to_values`, arm for arm. -/
theorem cellToValue_factor (c : RawCell) :
    cellToValue c = (decodeAs (tagOf c.typeName) c).getD CellValue.Null := by
  rw [cellToValue.eq_def, tagOf.eq_def]
  split <;> simp_all [decodeAs]

/-- Claim C1: the backend-native-type-to-CellValue mapping used during row
materialization is a total, deterministic function over type names
(`tagOf` is a Lean function extracted arm for arm from `row_to_values`'s
match, so totality and determinism are inherent; the first conjunct shows
it is the dispatch `row_to_values` actually uses), and it follows the
mapping table: boolean→Bool, the signed and unsigned integer family→Int,
floating/fixed-decimal→Float, date/time family→DateTime, native
JSON→Json, binary/blob family→Bytes, every other type name→String. -/
theorem type_mapping_table :
    (∀ c : RawCell,
        cellToValue c = (decodeAs (tagOf c.typeName) c).getD CellValue.Null)
    ∧ (∀ s ∈ ["BOOLEAN", "BOOL"], tagOf s = CellTag.boolTag)
    ∧ (∀ s ∈ ["TINYINT", "SMALLINT", "INT", "MEDIUMINT", "BIGINT",
              "TINYINT UNSIGNED", "SMALLINT UNSIGNED", "INT UNSIGNED",
              "MEDIUMINT UNSIGNED", "BIGINT UNSIGNED"],
        tagOf s = CellTag.intTag)
    ∧ (∀ s ∈ ["FLOAT", "DOUBLE", "DECIMAL"], tagOf s = CellTag.floatTag)
    ∧ (∀ s ∈ ["DATE", "TIME", "DATETIME", "TIMESTAMP"],
        tagOf s = CellTag.dateTimeTag)
    ∧ tagOf "JSON" = CellTag.jsonTag
    ∧ (∀ s ∈ ["BLOB", "BINARY", "VARBINARY", "TINYBLOB", "MEDIUMBLOB",
              "LONGBLOB"],
        tagOf s = CellTag.bytesTag)
    ∧ (∀ s, s ∉ mappedTypeNames → tagOf s = CellTag.stringTag) := by
  refine ⟨cellToValue_factor, by decide, by decide, by decide, by decide,
          by decide, by decide, ?_⟩
  intro s hs
  rw [tagOf.eq_def]
  split <;> simp_all [mappedTypeNames]

/-- Witness for C1 at a concrete input: `VARCHAR` is not an explicitly
mapped name, so the catch-all maps it to the String tag. -/
theorem type_mapping_table_witness : tagOf "VARCHAR" = CellTag.stringTag :=
  type_mapping_table.2.2.2.2.2.2.2 "VARCHAR" (by decide)

/-- Claim C2: for every row materialized by the driver and every cell
position in it, if the raw cell value cannot be coerced into the variant
its column type maps to (the arm's `try_get` fails), the produced
`CellValue` is Null; no error is raised and the rest of the row is still
materialized (`row_to_values` is total and length-preserving). -/
theorem cell_coercion_failure_null (row : List RawCell) (i : Nat)
    (hi : i < row.length)
    (hfail : decodeAs (tagOf (row.get ⟨i, hi⟩).typeName) (row.get ⟨i, hi⟩)
      = none) :
    (row_to_values row).length = row.length
    ∧ (row_to_values row).get ⟨i, by simpa [row_to_values] using hi⟩
        = CellValue.Null := by
  refine ⟨by simp [row_to_values], ?_⟩
  simp only [row_to_values, List.get_map]
  rw [cellToValue_factor, hfail]
  rfl

/-- Witness for C2 at a concrete input: a `BIGINT` cell whose `i64`
decode fails materializes as Null (and the one-cell row is still one
cell long). -/
theorem cell_coercion_failure_null_witness :
    (row_to_values [RawCell.mk "c0" "BIGINT" none none none (some "x") none]).length = 1
    ∧ (row_to_values
        [RawCell.mk "c0" "BIGINT" none none none (some "x") none]).get
        ⟨0, by decide⟩ = CellValue.Null :=
  cell_coercion_failure_null
    [RawCell.mk "c0" "BIGINT" none none none (some "x") none] 0
    (by decide) (by rfl)

/-- Claim C8: for every SQL string, a successful `execute_query` returns
a `QueryResult` whose columns and rows are populated from the backend
result set (columns from the first fetched row's metadata, rows via
`row_to_values`, in order) and whose affected-row count is absent
(`none`) — `execute_query` never reports an affected count.  Stated as a
closed-form equation over every successful fetch outcome; a fetch error
never produces a successful result (it maps to `QueryFailed`). -/
theorem execute_query_result_shape (elapsedMs : Nat)
    (rows : List (List RawCell)) :
    execute_query elapsedMs (Except.ok rows) =
      Except.ok { columns := (rows.headD []).map mkColumnInfo,
                  rows := rows.map row_to_values,
                  affected_rows := none,
                  execution_time_ms := elapsedMs } := by
  cases rows <;> simp [execute_query]

/-- Claim C9: if `execute_query`'s fetch yields zero rows, the returned
`QueryResult` has empty columns as well as empty rows — column metadata
is derived from the first fetched row, so a result-producing statement
matching no rows surfaces no column names or types. -/
theorem execute_query_empty_fetch (elapsedMs : Nat) :
    execute_query elapsedMs (Except.ok []) =
      Except.ok { columns := [], rows := [], affected_rows := none,
                  execution_time_ms := elapsedMs } := by
  simp [execute_query]

/-- Claim C10: two `ConnectionConfig` values differing only in the
TLS-enabled flag produce the identical connection string for every
backend type — `connection_string` never reads `ssl_enabled`. -/
theorem connection_string_ignores_ssl (c : ConnectionConfig) (b : Bool) :
    ConnectionConfig.connection_string { c with ssl_enabled := b }
      = c.connection_string := by
  cases c with
  | mk id name db_type host port username password database ssl color =>
    cases db_type <;> rfl

/-- Claim C6: for every `ConnectionConfig` whose backend tag has no
implemented driver (PostgreSQL, SQLite, MongoDB), the factory returns the
`UnsupportedType` failure immediately with no network attempt (its
outcome is never a `connectAttempt`); only the MySQL tag leads to a
connection attempt. -/
theorem factory_unsupported_no_io (c : ConnectionConfig)
    (h : c.db_type ≠ DatabaseType.MySQL) :
    (∀ url, create_connection c ≠ FactoryOutcome.connectAttempt url)
    ∧ (∃ msg, create_connection c = FactoryOutcome.unsupported msg)
    ∧ (∀ cm : ConnectionConfig, cm.db_type = DatabaseType.MySQL →
        create_connection cm
          = FactoryOutcome.connectAttempt cm.connection_string) := by
  refine ⟨?_, ?_, ?_⟩
  · intro url
    unfold create_connection
    cases hc : c.db_type <;> simp_all
  · unfold create_connection
    cases hc : c.db_type <;> simp_all
  · intro cm hm
    unfold create_connection
    rw [hm]

/-- Witness for C6 at a concrete input: the default-shaped config
retagged PostgreSQL yields the unsupported outcome and never a connect
attempt. -/
theorem factory_unsupported_no_io_witness :
    (∀ url,
      create_connection
        (ConnectionConfig.mk 0 "New Connection" DatabaseType.PostgreSQL
          "localhost" 3306 "root" "" "" false none)
        ≠ FactoryOutcome.connectAttempt url)
    ∧ (∃ msg,
        create_connection
          (ConnectionConfig.mk 0 "New Connection" DatabaseType.PostgreSQL
            "localhost" 3306 "root" "" "" false none)
          = FactoryOutcome.unsupported msg)
    ∧ (∀ cm : ConnectionConfig, cm.db_type = DatabaseType.MySQL →
        create_connection cm
          = FactoryOutcome.connectAttempt cm.connection_string) :=
  factory_unsupported_no_io
    (ConnectionConfig.mk 0 "New Connection" DatabaseType.PostgreSQL
      "localhost" 3306 "root" "" "" false none)
    (by decide)

/-- Counterexample to claim C5 as stated: when the named table does not
exist, the `information_schema.COLUMNS` query still succeeds — it simply
returns zero rows — and `describe_table` returns `Ok` with an empty
column list, not a `QueryFailed` error. -/
theorem describe_table_missing_table_ok :
    describe_table "d" "missing" (Except.ok []) =
      Except.ok (TableInfo.mk "missing" "d" none none none []) := by
  rfl

/-- Claim C5 (amended): `describe_table(database, table)` returns a
single `TableInfo` whose `ColumnDetails` sequence preserves the backend's
ordinal column order (the introspection rows, returned ordered by
ORDINAL_POSITION, are mapped by an order-preserving `filter_map`), and it
fails with `QueryFailed` exactly when the introspection query itself
errors; a nonexistent table yields a successful `TableInfo` with an empty
column list. -/
theorem describe_table_order_and_errors (database table : String)
    (fetch : Except String (List IntroRow)) :
    (∀ e, fetch = Except.error e →
      describe_table database table fetch
        = Except.error (DatabaseError.QueryFailed e))
    ∧ (∀ rows, fetch = Except.ok rows →
        describe_table database table fetch
          = Except.ok (TableInfo.mk table database none none none
              (rows.filterMap introRowToColumn))
        ∧ (rows.filterMap introRowToColumn).length ≤ rows.length) := by
  constructor
  · intro e he
    rw [he]
    rfl
  · intro rows hr
    rw [hr]
    exact ⟨rfl, List.length_filterMap_le introRowToColumn rows⟩

/-- Witness for the amended C5 at a concrete input: a two-row
introspection result (an `id` key column then a `name` column) maps, in
ordinal order, to the two expected `ColumnDetails`. -/
theorem describe_table_order_and_errors_witness :
    describe_table "shop" "items"
      (Except.ok
        [IntroRow.mk (some "id") (some "int") (some "NO") none (some "PRI")
          (some "auto_increment") (some ""),
         IntroRow.mk (some "name") (some "varchar(50)") (some "YES") none
          (some "") (some "") (some "")]) =
      Except.ok (TableInfo.mk "items" "shop" none none none
        [ColumnDetails.mk "id" "int" false none true true (some ""),
         ColumnDetails.mk "name" "varchar(50)" true none false false
          (some "")]) :=
  ((describe_table_order_and_errors "shop" "items"
      (Except.ok
        [IntroRow.mk (some "id") (some "int") (some "NO") none (some "PRI")
          (some "auto_increment") (some ""),
         IntroRow.mk (some "name") (some "varchar(50)") (some "YES") none
          (some "") (some "") (some "")])).2
    _ rfl).1.trans (by rfl)

/-- Claim C7: every `QueryResult` produced by a successful app-level
query execution is rectangular — each row has exactly as many cells as
there are columns (given the wire-protocol invariant that every fetched
raw row has the width of the first) — and whenever `affected_rows` is
`some`, both columns and rows are empty, so a result is never both a
result set and an affected-count. -/
theorem query_result_rectangular (sql : String) (elapsedMs : Nat)
    (queryFetch : Except String (List (List RawCell)))
    (stmtOutcome : Except DatabaseError Nat) (qr : QueryResult)
    (hrect : ∀ rows, queryFetch = Except.ok rows →
      ∀ r ∈ rows, r.length = (rows.headD []).length)
    (hok : app_execute_query sql elapsedMs queryFetch stmtOutcome
      = Except.ok qr) :
    (∀ i (h : i < qr.rows.length),
        (qr.rows.get ⟨i, h⟩).length = qr.columns.length)
    ∧ (∀ n, qr.affected_rows = some n → qr.columns = [] ∧ qr.rows = []) := by
  unfold app_execute_query at hok
  by_cases hsel : is_select sql
  · simp only [hsel, if_pos] at hok
    cases queryFetch with
    | error e => simp [execute_query, Except.mapError] at hok
    | ok rows =>
      have hre := hrect rows rfl
      rw [execute_query_result_shape] at hok
      simp only [Except.mapError] at hok
      cases hok
      constructor
      · intro i h
        simp only [List.get_map, row_to_values, List.length_map]
        exact hre _ (List.get_mem rows _ _)
      · intro n hn
        simp at hn
  · simp only [hsel, if_neg, Bool.false_eq_true, reduceIte] at hok
    cases stmtOutcome with
    | error e => simp at hok
    | ok affected =>
      cases hok
      refine ⟨?_, ?_⟩
      · intro i h
        simp at h
      · intro n hn
        exact ⟨rfl, rfl⟩

/-- Witness for C7 at a concrete input: a one-row, one-column SELECT
produces a rectangular result whose affected count is absent. -/
theorem query_result_rectangular_witness :
    (∀ i (h : i <
        (QueryResult.mk [mkColumnInfo (RawCell.mk "n" "BIGINT" none (some 7) none none none)]
          [[CellValue.Int 7]] none 5).rows.length),
      ((QueryResult.mk [mkColumnInfo (RawCell.mk "n" "BIGINT" none (some 7) none none none)]
          [[CellValue.Int 7]] none 5).rows.get ⟨i, h⟩).length
        = (QueryResult.mk [mkColumnInfo (RawCell.mk "n" "BIGINT" none (some 7) none none none)]
            [[CellValue.Int 7]] none 5).columns.length)
    ∧ (∀ n, (QueryResult.mk [mkColumnInfo (RawCell.mk "n" "BIGINT" none (some 7) none none none)]
          [[CellValue.Int 7]] none 5).affected_rows = some n →
        (QueryResult.mk [mkColumnInfo (RawCell.mk "n" "BIGINT" none (some 7) none none none)]
            [[CellValue.Int 7]] none 5).columns = []
        ∧ (QueryResult.mk [mkColumnInfo (RawCell.mk "n" "BIGINT" none (some 7) none none none)]
            [[CellValue.Int 7]] none 5).rows = []) :=
  query_result_rectangular "SELECT 1" 5
    (Except.ok [[RawCell.mk "n" "BIGINT" none (some 7) none none none]])
    (Except.ok 0)
    (QueryResult.mk [mkColumnInfo (RawCell.mk "n" "BIGINT" none (some 7) none none none)]
      [[CellValue.Int 7]] none 5)
    (by intro rows h; cases h; intro r hr; simp at hr; rw [hr]; rfl)
    (by rfl)

/-- Claim C3: for every async-bridge operation slot, once a poll observes
the slot's terminal result, the slot is reset to Idle (`none`), so every
subsequent poll before a new operation is started observes no result —
each initiated operation's result is delivered to the polling caller at
most once.  This is the shape shared by all six slots of
`poll_async_tasks` (connect, test-connection, list-databases,
list-tables, list-views, run-query), each of which assigns
`self.pending_x = None` inside the `if let Ok(result)` block. -/
theorem slot_exactly_once {α : Type} (s : Slot α) (v : α) (s' : Slot α)
    (h : pollSlot s = (some v, s')) :
    s' = (none : Slot α)
    ∧ pollSlot s' = ((none : Option α), (none : Slot α)) := by
  cases s with
  | none => simp [pollSlot] at h
  | some rx =>
    cases rx with
    | none => simp [pollSlot] at h
    | some w =>
      simp [pollSlot] at h
      obtain ⟨-, h2⟩ := h
      subst h2
      exact ⟨rfl, rfl⟩

/-- Witness for C3 at a concrete input: a slot whose background task has
sent the value 3 delivers it on this poll and is empty afterwards. -/
theorem slot_exactly_once_witness :
    (none : Slot Nat) = (none : Slot Nat)
    ∧ pollSlot (none : Slot Nat) = ((none : Option Nat), (none : Slot Nat)) :=
  slot_exactly_once (some (some 3)) 3 none (by rfl)

/-- Lock-ownership invariant for the two-operation bridge system: a task
is in its transport section exactly while it owns the mutex. -/
theorem bridge_lock_inv (s : BridgeState) (h : BridgeReachable s) :
    (s.opA = OpPhase.transport → s.lockOwner = some false)
    ∧ (s.opB = OpPhase.transport → s.lockOwner = some true) := by
  induction h with
  | init =>
    constructor <;> intro hx <;> simp [bridgeInit] at hx
  | step hr hst ih =>
    cases hst with
    | lockA h1 h2 =>
      constructor
      · intro _
        rfl
      · intro hb
        have hb' := ih.2 (by simpa using hb)
        rw [h2] at hb'
        simp at hb'
    | finishA h1 =>
      constructor
      · intro hx
        simp at hx
      · intro hb
        have hb' := ih.2 (by simpa using hb)
        have ha' := ih.1 h1
        rw [ha'] at hb'
        simp at hb'
    | lockB h1 h2 =>
      constructor
      · intro ha
        have ha' := ih.1 (by simpa using ha)
        rw [h2] at ha'
        simp at ha'
      · intro _
        rfl
    | finishB h1 =>
      constructor
      · intro ha
        have ha' := ih.1 (by simpa using ha)
        have hb' := ih.2 h1
        rw [ha'] at hb'
        simp at hb'
      · intro hx
        simp at hx

/-- Claim C4: two operations spawned concurrently against the same live
connection never interleave at the transport level — in no reachable
state of the two-task system are both operations inside their transport
calls, because the shared handle's exclusive lock is held for the
duration of each operation. -/
theorem transport_mutual_exclusion (s : BridgeState)
    (h : BridgeReachable s) :
    ¬(s.opA = OpPhase.transport ∧ s.opB = OpPhase.transport) := by
  rintro ⟨ha, hb⟩
  have h1 := (bridge_lock_inv s h).1 ha
  have h2 := (bridge_lock_inv s h).2 hb
  rw [h1] at h2
  simp at h2

/-- Witness for C4 at a concrete reachable state: after the first
operation acquires the lock and enters its transport call, the two
operations are not both in transport. -/
theorem transport_mutual_exclusion_witness :
    ¬((BridgeState.mk OpPhase.transport OpPhase.start (some false)).opA
        = OpPhase.transport
      ∧ (BridgeState.mk OpPhase.transport OpPhase.start (some false)).opB
        = OpPhase.transport) :=
  transport_mutual_exclusion _
    (BridgeReachable.step BridgeReachable.init (BridgeStep.lockA rfl rfl))

end Nebula
